import Mathlib

/-!
Verification of the `pe-rf-compare-uc` dashboard front-end.

The development shallowly embeds the JavaScript code of
`src/dashboard/src/App.jsx` (namespace `Dashboard`) and of the second copy of
the component in `src/unnamed/part_001` (namespace `Part001`).  JavaScript
numbers are modelled as exact rationals (`JsNum.rat`), with `Infinity` and
`NaN` as explicit constructors; JavaScript values flowing through the CSV
pipeline are modelled by `JsVal` (number / string / null / undefined), and
JavaScript objects by insertion-ordered association lists (`JsObj`).  String
primitives (`trim`, `split`, `startsWith`, ...) are modelled by structurally
recursive functions on character lists so that every definition evaluates by
kernel reduction.
-/

/-- Model of a JavaScript number: an exact rational, an infinity, or NaN.
The numbers handled by the embedded code come from finite decimal literals,
so exact rationals are a faithful carrier for them. -/
inductive JsNum where
  | rat (q : ℚ)
  | inf (neg : Bool)
  | nan
deriving DecidableEq

/-- Model of the JavaScript values produced by the CSV pipeline:
numbers, strings, `null` and `undefined`. -/
inductive JsVal where
  | num (n : JsNum)
  | str (s : String)
  | null
  | undef
deriving DecidableEq

/-- A JavaScript object with string keys, as an insertion-ordered association
list (keys are unique by construction of `Dashboard.objInsert`). -/
abbrev JsObj := List (String × JsVal)

/-- Property read `obj[k]`: first (= only) binding of `k`, or `undefined`
(modelled as `none`) when the key is absent. -/
def objGet (obj : JsObj) (k : String) : Option JsVal :=
  match obj with
  | [] => none
  | p :: rest => if p.1 = k then some p.2 else objGet rest k

/-- JavaScript `String.prototype.trim`, on character lists: remove leading and
trailing whitespace (modelled by `Char.isWhitespace`). -/
def jsTrimChars (l : List Char) : List Char :=
  ((l.dropWhile Char.isWhitespace).reverse.dropWhile Char.isWhitespace).reverse

/-- JavaScript `String.prototype.split` with a single-character separator,
accumulator-style: `splitCharAux sep l cur` finishes the current (reversed)
field `cur` at each separator.  `"".split(sep)` gives `[""]`, and empty fields
around adjacent separators are kept, as in JavaScript. -/
def splitCharAux (sep : Char) : List Char → List Char → List (List Char)
  | [], cur => [cur.reverse]
  | c :: rest, cur =>
      if c = sep then cur.reverse :: splitCharAux sep rest []
      else splitCharAux sep rest (c :: cur)

/-- JavaScript `s.split(sep)` for a one-character separator, producing strings. -/
def jsSplit (s : String) (sep : Char) : List String :=
  (splitCharAux sep s.toList []).map String.mk

/-- Numeric value of a list of decimal digit characters, most significant first. -/
def digitsToNat (l : List Char) : Nat :=
  l.foldl (fun a c => a * 10 + (c.toNat - 48)) 0

/-- Signed decimal digit run at the head of `l` (used for exponents); `0` when
no digit follows, matching `parseFloat`, which then does not consume the
exponent marker. -/
def parseSignedDigits (l : List Char) : ℤ :=
  match l with
  | '+' :: r =>
      let ds := (r.span Char.isDigit).1
      if ds = [] then 0 else (digitsToNat ds : ℤ)
  | '-' :: r =>
      let ds := (r.span Char.isDigit).1
      if ds = [] then 0 else -(digitsToNat ds : ℤ)
  | _ =>
      let ds := (l.span Char.isDigit).1
      if ds = [] then 0 else (digitsToNat ds : ℤ)

/-- Exponent part recognised by `parseFloat` at the head of `l` (zero when the
`e`/`E` is absent or not followed by a digit). -/
def parseExp (l : List Char) : ℤ :=
  match l with
  | 'e' :: rest => parseSignedDigits rest
  | 'E' :: rest => parseSignedDigits rest
  | _ => 0

/-- The rational `±(digits of ip ++ fp) · 10 ^ (e - |fp|)`, built with a single
`mkRat` so the mantissa/exponent arithmetic is exact. -/
def decimalValue (neg : Bool) (ip fp : List Char) (e : ℤ) : ℚ :=
  let m : ℤ := (if neg then -1 else 1) * (digitsToNat (ip ++ fp) : ℤ)
  let e2 : ℤ := e - (fp.length : ℤ)
  if 0 ≤ e2 then mkRat (m * (10 : ℤ) ^ e2.toNat) 1
  else mkRat m ((10 : ℕ) ^ (-e2).toNat)

/-- Model of the JavaScript builtin `parseFloat`: skip whitespace, optional
sign, then `Infinity` or the longest decimal-literal prefix
`digits [. digits] [e digits]`; `NaN` when no digit is found. -/
def jsParseFloat (s : String) : JsNum :=
  let l := jsTrimChars s.toList
  let neg : Bool := match l with | '-' :: _ => true | _ => false
  let l1 : List Char :=
    match l with
    | '-' :: r => r
    | '+' :: r => r
    | _ => l
  if "Infinity".toList.isPrefixOf l1 then JsNum.inf neg
  else
    let ip := (l1.span Char.isDigit).1
    let r1 := (l1.span Char.isDigit).2
    let fp : List Char :=
      match r1 with
      | '.' :: r => (r.span Char.isDigit).1
      | _ => []
    let r2 : List Char :=
      match r1 with
      | '.' :: r => (r.span Char.isDigit).2
      | _ => r1
    if ip = [] ∧ fp = [] then JsNum.nan
    else JsNum.rat (decimalValue neg ip fp (parseExp r2))

/-- Hexadecimal digit test for the `0x` literal form of `Number(string)`. -/
def isHexChar (c : Char) : Bool :=
  c.isDigit || (decide ('a' ≤ c) && decide (c ≤ 'f')) || (decide ('A' ≤ c) && decide (c ≤ 'F'))

/-- Exponent part of a full decimal literal: empty, or `e`/`E`, optional sign,
one or more digits consuming the rest of the input. -/
def isExpPartValid : List Char → Bool
  | [] => true
  | c :: rest =>
      if c = 'e' ∨ c = 'E' then
        let rest2 : List Char :=
          match rest with
          | '+' :: r => r
          | '-' :: r => r
          | _ => rest
        decide (rest2 ≠ []) && rest2.all Char.isDigit
      else false

/-- Unsigned decimal literal `digits [. digits] [exp]` (a digit must appear on
at least one side of the dot), consuming the whole input. -/
def isUnsignedDecimalLiteral (l : List Char) : Bool :=
  let ip := (l.span Char.isDigit).1
  let r1 := (l.span Char.isDigit).2
  match r1 with
  | '.' :: r =>
      let fp := (r.span Char.isDigit).1
      let r3 := (r.span Char.isDigit).2
      (decide (ip ≠ []) || decide (fp ≠ [])) && isExpPartValid r3
  | _ => decide (ip ≠ []) && isExpPartValid r1

/-- Binary, octal and hexadecimal integer literals accepted by `Number(string)`. -/
def isNonDecIntLiteral (l : List Char) : Bool :=
  match l with
  | '0' :: c :: rest =>
      if c = 'x' ∨ c = 'X' then decide (rest ≠ []) && rest.all isHexChar
      else if c = 'o' ∨ c = 'O' then
        decide (rest ≠ []) && rest.all (fun d => decide ('0' ≤ d) && decide (d ≤ '7'))
      else if c = 'b' ∨ c = 'B' then
        decide (rest ≠ []) && rest.all (fun d => d == '0' || d == '1')
      else false
  | _ => false

/-- The `StringNumericLiteral` grammar of `Number(string)`: optionally signed
decimal literal or `Infinity`, or an unsigned radix-prefixed integer literal. -/
def isStringNumericLiteralChars (l : List Char) : Bool :=
  match l with
  | '+' :: r => (r == "Infinity".toList) || isUnsignedDecimalLiteral r
  | '-' :: r => (r == "Infinity".toList) || isUnsignedDecimalLiteral r
  | _ =>
      (l == "Infinity".toList) || isUnsignedDecimalLiteral l || isNonDecIntLiteral l

/-- Model of the JavaScript global `isNaN` applied to a string: the string is
coerced with `Number(string)` (trimmed; empty converts to `0`), and the result
is `NaN` exactly when the trimmed text is non-empty and not a numeric literal. -/
def jsNumberIsNaN (s : String) : Bool :=
  let t := jsTrimChars s.toList
  if t = [] then false else !(isStringNumericLiteralChars t)

/-- Number of times `p` divides `n` (fuel-based so that it evaluates by kernel
reduction); used to detect denominators of the form `2^a * 5^b`. -/
def countFacAux (p : ℕ) : ℕ → ℕ → ℕ
  | 0, _ => 0
  | fuel + 1, n => if 1 < p ∧ 1 < n ∧ p ∣ n then countFacAux p fuel (n / p) + 1 else 0

/-- Multiplicity of `p` in `n` (for `1 < p`, `1 < n`). -/
def countFac (p n : ℕ) : ℕ := countFacAux p n n

/-- Decimal rendering of a rational whose denominator divides a power of ten,
modelling JavaScript `Number.prototype.toString` on the doubles arising from
finite decimal literals: integer digits, then a dot and the fraction digits
(no trailing zeros, since the power of ten used is minimal).  Rationals with
other denominators (unreachable from the embedded code) fall back to the
`num/den` rendering. -/
def jsRatToString (q : ℚ) : String :=
  if q.den = 1 then toString q.num
  else
    let a := countFac 2 q.den
    let b := countFac 5 q.den
    let k := max a b
    if q.den = 2 ^ a * 5 ^ b then
      let mabs := q.num.natAbs * 10 ^ k / q.den
      let ds := Nat.repr mabs
      let ds2 := if ds.length ≤ k then String.mk (List.replicate (k + 1 - ds.length) '0') ++ ds else ds
      (if q.num < 0 then "-" else "") ++
        String.mk (ds2.toList.take (ds2.length - k)) ++ "." ++
        String.mk (ds2.toList.drop (ds2.length - k))
    else toString q

/-- JavaScript string conversion of a number (`String(n)`, template literals). -/
def jsNumToString (n : JsNum) : String :=
  match n with
  | JsNum.rat q => jsRatToString q
  | JsNum.inf b => if b then "-Infinity" else "Infinity"
  | JsNum.nan => "NaN"

/-- Insert a comma before every third digit of a reversed digit run:
`groupRevGo i l` has already emitted `i` digits. -/
def groupRevGo : ℕ → List Char → List Char
  | _, [] => []
  | i, c :: rest =>
      if 0 < i ∧ i % 3 = 0 then ',' :: c :: groupRevGo (i + 1) rest
      else c :: groupRevGo (i + 1) rest

/-- Group the integer digits `l` (most significant first) in threes with
commas, as the `en-US` locale does. -/
def groupThousands (l : List Char) : List Char :=
  (groupRevGo 0 l.reverse).reverse

/-- Model of `Number.prototype.toLocaleString` in the default `en-US` locale:
the digits of the integer part are grouped in threes with commas (the
fractional digits of the exact decimal rendering are kept verbatim;
infinities render as `∞`). -/
def jsNumToLocaleString (n : JsNum) : String :=
  match n with
  | JsNum.nan => "NaN"
  | JsNum.inf b => if b then "-∞" else "∞"
  | JsNum.rat q =>
      let s := jsRatToString q
      let neg : Bool := match s.toList with | '-' :: _ => true | _ => false
      let l1 : List Char := match s.toList with | '-' :: r => r | l => l
      let ipart := (l1.span (fun c => c ≠ '.')).1
      let rest := (l1.span (fun c => c ≠ '.')).2
      (if neg then "-" else "") ++ String.mk (groupThousands ipart) ++ String.mk rest

/-- JavaScript template-literal / `String()` conversion of a `JsVal`. -/
def jsValTemplate (v : JsVal) : String :=
  match v with
  | JsVal.num n => jsNumToString n
  | JsVal.str s => s
  | JsVal.null => "null"
  | JsVal.undef => "undefined"

/-- JavaScript `toLocaleString()` on a `JsVal`: locale rendering for numbers,
identity for strings.  On `null`/`undefined` the call would throw; the embedded
code only reaches it behind a null/undefined guard, and the model totalises it
with the template rendering. -/
def jsValToLocaleString (v : JsVal) : String :=
  match v with
  | JsVal.num n => jsNumToLocaleString n
  | JsVal.str s => s
  | JsVal.null => "null"
  | JsVal.undef => "undefined"

/-- JavaScript property-key conversion of a value (`obj[v]` coerces `v` with
`ToPropertyKey`, i.e. `String(v)` for these values). -/
def jsPropKey (v : JsVal) : String := jsValTemplate v

namespace Dashboard

/-- `src/dashboard/src/App.jsx`, `parseCSV`, quoted-value handling:
`if (val && val.startsWith('"') && val.endsWith('"')) val = val.slice(1, -1)`.
A truthy (non-empty) value whose first and last characters are `"` loses one
leading and one trailing character; a lone `"` satisfies both tests and strips
to the empty string, as in JavaScript. -/
def jsStripQuotes (v : String) : String :=
  match v.toList with
  | [] => v
  | c :: rest =>
      if c = '"' ∧ (c :: rest).getLast? = some '"' then
        String.mk ((c :: rest).drop 1).dropLast
      else v

/-- `parseCSV`, number/null/string classification of a (quote-stripped) value:
`if (val && !isNaN(val) && val !== '') obj[header] = parseFloat(val)`
`else if (val === '' || val === 'None') obj[header] = null`
`else obj[header] = val`. -/
def classifyStripped (v : String) : JsVal :=
  if v ≠ "" ∧ jsNumberIsNaN v = false ∧ v ≠ "" then JsVal.num (jsParseFloat v)
  else if v = "" ∨ v = "None" then JsVal.null
  else JsVal.str v

/-- `parseCSV`, handling of one raw field `values[i]` (`none` models the
`undefined` read past the end of `values`): an `undefined` value skips the
quote handling (it is falsy), fails all the tests, and is stored as-is. -/
def classifyField : Option String → JsVal
  | none => JsVal.undef
  | some v => classifyStripped (jsStripQuotes v)

/-- JavaScript property assignment `obj[header] = v` on the association-list
object: overwrite in place when the key exists, else append. -/
def objInsert (obj : JsObj) (k : String) (v : JsVal) : JsObj :=
  if obj.any (fun p => p.1 == k) then
    obj.map (fun p => if p.1 = k then (k, v) else p)
  else obj ++ [(k, v)]

/-- The `headers.forEach((header, i) => ...)` loop of `parseCSV`: fold over the
remaining headers, with `i` the index of the first one. -/
def parseLineGo (values : List String) : List String → ℕ → JsObj → JsObj
  | [], _, obj => obj
  | h :: t, i, obj =>
      parseLineGo values t (i + 1) (objInsert obj h (classifyField (values.get? i)))

/-- The per-line body of `parseCSV`:
`const values = line.split(','); const obj = {}; headers.forEach(...)`. -/
def parseLine (headers : List String) (line : String) : JsObj :=
  parseLineGo (jsSplit line ',') headers 0 []

/-- `const lines = text.trim().split('\n')` of `parseCSV`. -/
def csvLines (text : String) : List String :=
  jsSplit (String.mk (jsTrimChars text.toList)) '\n'

/-- `const headers = lines[0].split(',')` of `parseCSV` (`lines` is never
empty: splitting always yields at least one piece). -/
def csvHeaders (text : String) : List String :=
  jsSplit (csvLines text).headI ','

/-- `src/dashboard/src/App.jsx` lines 5-28, `parseCSV`: trim, split into
lines, comma-split the first line as headers, and map every remaining line to
an object. -/
def parseCSV (text : String) : List JsObj :=
  ((csvLines text).drop 1).map (parseLine (csvHeaders text))

/-- The three style records of the `colors` object literal in `StatusBadge`
(`App.jsx` lines 31-35) with their background colour, text colour and label. -/
structure BadgeStyle where
  bg : String
  fg : String
  label : String
deriving DecidableEq

/-- The `colors` object of `StatusBadge`, as an association list in literal
order. -/
def statusColorTable : List (String × BadgeStyle) :=
  [("close_match", ⟨"#dcfce7", "#166534", "Close Match"⟩),
   ("moderate_diff", ⟨"#fef3c7", "#92400e", "Moderate Diff"⟩),
   ("large_discrepancy", ⟨"#fee2e2", "#991b1b", "Large Gap"⟩)]

/-- Own-property lookup on the `colors` literal (the part of the member read
`colors[status]` that consults the object's own entries; the inherited
`Object.prototype` properties are handled by `colorsRead`). -/
def styleLookup (l : List (String × BadgeStyle)) (k : String) : Option BadgeStyle :=
  match l with
  | [] => none
  | p :: rest => if p.1 = k then some p.2 else styleLookup rest k

/-- `const { bg, text, label } = colors[status] || colors.moderate_diff`,
restricted to own properties: the property key is the string conversion of
`status`, and a key that is not an own entry falls back to the
`moderate_diff` record.  This is the behaviour of the member read whenever
the key is not one of the `Object.prototype` property names; the full
semantics, inherited properties included, is `statusBadgeFull`. -/
def statusBadgeStyle (status : JsVal) : BadgeStyle :=
  match styleLookup statusColorTable (jsPropKey status) with
  | some c => c
  | none => ⟨"#fef3c7", "#92400e", "Moderate Diff"⟩

/-- The rendered `<span>` of `StatusBadge`: inline background colour, text
colour, and the label as the child text. -/
structure SpanElem where
  backgroundColor : String
  color : String
  child : String
deriving DecidableEq

/-- `StatusBadge` (`App.jsx` lines 30-42) on a status whose key is not
inherited from `Object.prototype`: resolve the colour record for the status
and render the label in a span styled with it. -/
def statusBadge (status : JsVal) : SpanElem :=
  let c := statusBadgeStyle status
  ⟨c.bg, c.fg, c.label⟩

/-- The property names every plain object literal inherits from
`Object.prototype` (ECMA-262): reading any of them on the `colors` literal
yields a truthy value (a built-in function, or `Object.prototype` itself for
`__proto__`), not `undefined`. -/
def objectPrototypeKeys : List String :=
  ["constructor", "hasOwnProperty", "isPrototypeOf", "propertyIsEnumerable",
   "toLocaleString", "toString", "valueOf", "__proto__",
   "__defineGetter__", "__defineSetter__", "__lookupGetter__", "__lookupSetter__"]

/-- Outcome of the full JavaScript member read `colors[key]` on the
`StatusBadge` colour literal: one of the literal's own style records, a
truthy value inherited from `Object.prototype`, or `undefined`. -/
inductive ColorsRead where
  | own (c : BadgeStyle)
  | inherited
  | undef
deriving DecidableEq

/-- The member read `colors[key]` with the prototype chain: own entries
first, then the properties inherited from `Object.prototype`, then
`undefined`. -/
def colorsRead (key : String) : ColorsRead :=
  match styleLookup statusColorTable key with
  | some c => ColorsRead.own c
  | none =>
      if key ∈ objectPrototypeKeys then ColorsRead.inherited else ColorsRead.undef

/-- The rendered `<span>` of `StatusBadge` under the full member-read
semantics: each destructured property may be `undefined` (`none`), in which
case React drops it from the inline style and renders no label text. -/
structure SpanElemOpt where
  backgroundColor : Option String
  color : Option String
  child : Option String
deriving DecidableEq

/-- `StatusBadge` with the full semantics of
`colors[status] || colors.moderate_diff`: an own entry styles the span with
its colours and label; a truthy value inherited from `Object.prototype` is
kept by the `||` (no fallback), and destructuring `bg`/`text`/`label` from it
yields `undefined` for all three; only a genuinely absent key is falsy and
falls back to the `moderate_diff` record. -/
def statusBadgeFull (status : JsVal) : SpanElemOpt :=
  match colorsRead (jsPropKey status) with
  | ColorsRead.own c => ⟨some c.bg, some c.fg, some c.label⟩
  | ColorsRead.inherited => ⟨none, none, none⟩
  | ColorsRead.undef => ⟨some "#fef3c7", some "#92400e", some "Moderate Diff"⟩

/-- The `el.expenditure_bn` read of `ElementsChart`, as a rational.  Under the
hypotheses of the chart theorems every element carries a numeric
`expenditure_bn`; other shapes (whose arithmetic would be `NaN` in JavaScript)
default to `0` here and are excluded by those hypotheses. -/
def elementExp (row : JsObj) : ℚ :=
  match objGet row "expenditure_bn" with
  | some (JsVal.num (JsNum.rat q)) => q
  | _ => 0

/-- `Math.max(...elements.map(e => e.expenditure_bn))` for a non-empty list
(`Math.max()` of no arguments would be `-Infinity`; the empty case is
unreachable under the chart theorems' hypotheses and defaults to `0`). -/
def chartMax (exps : List ℚ) : ℚ :=
  match exps with
  | [] => 0
  | h :: t => t.foldl max h

/-- `ElementsChart` (`App.jsx` lines 90-108): one bar per element, of width
`(el.expenditure_bn / maxVal) * 100` per cent. -/
def elementsChartWidths (elements : List JsObj) : List ℚ :=
  let maxVal := chartMax (elements.map elementExp)
  elements.map (fun el => elementExp el / maxVal * 100)

/-- The six `useState` cells of `App` (`App.jsx` lines 111-116). -/
structure AppState where
  metadata : Option JsObj
  comparison : List JsObj
  elements : List JsObj
  policyImpacts : List JsObj
  loading : Bool
  error : Option String
deriving DecidableEq

/-- The initial state of `App`: `useState(null)`, three `useState([])`,
`useState(true)`, `useState(null)`. -/
def initState : AppState :=
  { metadata := none, comparison := [], elements := [], policyImpacts := [],
    loading := true, error := none }

/-- The four URLs fetched by `loadData` (`App.jsx` lines 121-126), in request
order. -/
def dataUrls : List String :=
  ["/data/metadata.csv", "/data/comparison.csv", "/data/uc_elements.csv",
   "/data/policy_impacts.csv"]

/-- `loadData` (`App.jsx` lines 119-144): fetch the four CSV files and read
their text (one combined `fetchText` effect per URL; a `.error` models a
rejected promise and carries the exception's `err.message`).  On success,
parse each text, store the first metadata row and the three whole arrays, and
clear `loading`; on the first failure, store the message in `error` and clear
`loading`, leaving every data cell untouched. -/
def loadData (fetchText : String → Except String String) (s : AppState) : AppState :=
  match fetchText "/data/metadata.csv", fetchText "/data/comparison.csv",
        fetchText "/data/uc_elements.csv", fetchText "/data/policy_impacts.csv" with
  | Except.ok metaText, Except.ok compText, Except.ok elemText, Except.ok policyText =>
      { s with metadata := (parseCSV metaText).head?,
               comparison := parseCSV compText,
               elements := parseCSV elemText,
               policyImpacts := parseCSV policyText,
               loading := false }
  | Except.error msg, _, _, _ => { s with error := some msg, loading := false }
  | _, Except.error msg, _, _ => { s with error := some msg, loading := false }
  | _, _, Except.error msg, _ => { s with error := some msg, loading := false }
  | _, _, _, Except.error msg => { s with error := some msg, loading := false }

/-- The three top-level render outcomes of `App` (`App.jsx` lines 148-149 and
the main tree): the loading message, the load-error message, or the dashboard
over the four data cells. -/
inductive RenderResult where
  | loadingView
  | errorView (msg : String)
  | dashboard (metadata : Option JsObj) (comparison elements policyImpacts : List JsObj)
deriving DecidableEq

/-- `if (loading) return <div .../>; if (error) return <div .../>; return (...)`:
`error` is tested for truthiness, so a stored empty string falls through to the
dashboard. -/
def renderApp (s : AppState) : RenderResult :=
  if s.loading then RenderResult.loadingView
  else
    match s.error with
    | some msg =>
        if msg ≠ "" then RenderResult.errorView ("Error loading data: " ++ msg)
        else RenderResult.dashboard s.metadata s.comparison s.elements s.policyImpacts
    | none => RenderResult.dashboard s.metadata s.comparison s.elements s.policyImpacts

end Dashboard

namespace Part001

/-- `src/unnamed/part_001` lines 12-14: the quoted-value handling of its
`parseCSV` (textually identical to the dashboard copy). -/
def jsStripQuotes (v : String) : String :=
  match v.toList with
  | [] => v
  | c :: rest =>
      if c = '"' ∧ (c :: rest).getLast? = some '"' then
        String.mk ((c :: rest).drop 1).dropLast
      else v

/-- `part_001` lines 15-21: the number/null/string classification of its
`parseCSV`. -/
def classifyStripped (v : String) : JsVal :=
  if v ≠ "" ∧ jsNumberIsNaN v = false ∧ v ≠ "" then JsVal.num (jsParseFloat v)
  else if v = "" ∨ v = "None" then JsVal.null
  else JsVal.str v

/-- `part_001`: handling of one raw field `values[i]` of its `parseCSV`. -/
def classifyField : Option String → JsVal
  | none => JsVal.undef
  | some v => classifyStripped (jsStripQuotes v)

/-- `part_001`: the object assignment `obj[header] = ...` of its `parseCSV`. -/
def objInsert (obj : JsObj) (k : String) (v : JsVal) : JsObj :=
  if obj.any (fun p => p.1 == k) then
    obj.map (fun p => if p.1 = k then (k, v) else p)
  else obj ++ [(k, v)]

/-- `part_001`: the `headers.forEach((header, i) => ...)` loop of its
`parseCSV`. -/
def parseLineGo (values : List String) : List String → ℕ → JsObj → JsObj
  | [], _, obj => obj
  | h :: t, i, obj =>
      parseLineGo values t (i + 1) (objInsert obj h (classifyField (values.get? i)))

/-- `part_001`: the per-line body of its `parseCSV`. -/
def parseLine (headers : List String) (line : String) : JsObj :=
  parseLineGo (jsSplit line ',') headers 0 []

/-- `src/unnamed/part_001` lines 4-25, `parseCSV` (the second copy of the
parser): trim, split into lines, comma-split the first line as headers, and
map every remaining line to an object. -/
def parseCSV (text : String) : List JsObj :=
  let lines := jsSplit (String.mk (jsTrimChars text.toList)) '\n'
  let headers := jsSplit lines.headI ','
  (lines.drop 1).map (parseLine headers)

/-- The trailing percentage append of `formatValue` (`part_001` line 36):
`if (pct !== null && pct !== undefined) str += ` (${pct}%)``. -/
def withPct (pct : JsVal) (s : String) : String :=
  if pct ≠ JsVal.null ∧ pct ≠ JsVal.undef then s ++ " (" ++ jsValTemplate pct ++ "%)"
  else s

/-- `formatValue` (`part_001` lines 27-38): em dash for null/undefined values,
then a unit-directed rendering (`£` and `k` use `toLocaleString`), then the
optional percentage suffix. -/
def formatValue (val unit pct : JsVal) : String :=
  if val = JsVal.null ∨ val = JsVal.undef then "—"
  else
    withPct pct
      (if unit = JsVal.str "£" then "£" ++ jsValToLocaleString val
       else if unit = JsVal.str "bn" then "£" ++ jsValTemplate val ++ "bn"
       else if unit = JsVal.str "%" then jsValTemplate val ++ "%"
       else if unit = JsVal.str "k" then jsValToLocaleString val ++ "k"
       else if unit = JsVal.str "m" then jsValTemplate val ++ "m"
       else jsValTemplate val ++ jsValTemplate unit)

end Part001

/-- Reference CSV field scanner, following the specification's notion of a
parser that does handle embedded delimiters: a double quote toggles quoted
mode (and is dropped), a comma outside quotes ends the field, every other
character is kept.  `refFields l inQ cur` scans `l` with `cur` the reversed
current field. -/
def refFields : List Char → Bool → List Char → List String
  | [], _, cur => [String.mk cur.reverse]
  | '"' :: rest, inQ, cur => refFields rest (!inQ) cur
  | ',' :: rest, false, cur => String.mk cur.reverse :: refFields rest false []
  | c :: rest, inQ, cur => refFields rest inQ (c :: cur)

/-- Reference splitting of one CSV line into fields, quotes respected. -/
def referenceSplitLine (line : String) : List String :=
  refFields line.toList false []

/-- Reference handling of one field: same value conversion as the embedded
parser, but on the already-unquoted field text. -/
def referenceClassify : Option String → JsVal
  | none => JsVal.undef
  | some v => Dashboard.classifyStripped v

/-- Reference row construction: each header is bound to the field at its
index. -/
def referenceRow (values : List String) : List String → ℕ → JsObj
  | [], _ => []
  | h :: t, i => (h, referenceClassify (values.get? i)) :: referenceRow values t (i + 1)

/-- Reference CSV parser: the same trim/line/header pipeline as `parseCSV`,
with quote-aware field splitting. -/
def referenceParseCSV (text : String) : List JsObj :=
  let lines := jsSplit (String.mk (jsTrimChars text.toList)) '\n'
  let headers := referenceSplitLine lines.headI
  (lines.drop 1).map (fun line => referenceRow (referenceSplitLine line) headers 0)

/-- Row semantics of `parseCSV` used by the structure theorems: header `i`
bound to the classification of field `i`, in header order (the code's
`forEach` builds exactly this when the headers are distinct). -/
def specRow (values : List String) : List String → ℕ → JsObj
  | [], _ => []
  | h :: t, i => (h, Dashboard.classifyField (values.get? i)) :: specRow values t (i + 1)

theorem objInsert_new (obj : JsObj) (k : String) (v : JsVal)
    (h : ∀ p ∈ obj, p.1 ≠ k) :
    Dashboard.objInsert obj k v = obj ++ [(k, v)] := by
  rw [Dashboard.objInsert, if_neg]
  simp only [List.any_eq_true, beq_iff_eq, not_exists, not_and]
  intro p hp
  exact h p hp

theorem parseLineGo_eq_append (values : List String) :
    ∀ (hs : List String) (i : ℕ) (obj : JsObj), hs.Nodup →
      (∀ h ∈ hs, ∀ p ∈ obj, p.1 ≠ h) →
      Dashboard.parseLineGo values hs i obj = obj ++ specRow values hs i := by
  intro hs
  induction hs with
  | nil => intro i obj _ _; simp [Dashboard.parseLineGo, specRow]
  | cons h t ih =>
      intro i obj hnd hdisj
      have hins : Dashboard.objInsert obj h (Dashboard.classifyField (values.get? i))
          = obj ++ [(h, Dashboard.classifyField (values.get? i))] :=
        objInsert_new _ _ _ (hdisj h (by simp))
      have hd2 : ∀ h2 ∈ t, ∀ p ∈ obj ++ [(h, Dashboard.classifyField (values.get? i))],
          p.1 ≠ h2 := by
        intro h2 hh2 p hp
        rcases List.mem_append.mp hp with hp1 | hp2
        · exact hdisj h2 (by simp [hh2]) p hp1
        · have hph : p = (h, Dashboard.classifyField (values.get? i)) := by simpa using hp2
          have hht : h ∉ t := (List.nodup_cons.mp hnd).1
          rw [hph]
          intro hcon
          have hhh2 : h = h2 := hcon
          exact hht (hhh2 ▸ hh2)
      rw [Dashboard.parseLineGo, hins, ih (i + 1) _ (List.nodup_cons.mp hnd).2 hd2]
      simp [specRow, List.append_assoc]

theorem parseLine_eq_specRow (headers : List String) (line : String)
    (hnd : headers.Nodup) :
    Dashboard.parseLine headers line = specRow (jsSplit line ',') headers 0 := by
  rw [Dashboard.parseLine, parseLineGo_eq_append _ headers 0 [] hnd (by simp)]
  simp

theorem specRow_keys (values : List String) :
    ∀ (hs : List String) (i : ℕ), (specRow values hs i).map Prod.fst = hs := by
  intro hs
  induction hs with
  | nil => intro i; simp [specRow]
  | cons h t ih => intro i; simp [specRow, ih]

theorem specRow_objGet (values : List String) :
    ∀ (hs : List String), hs.Nodup → ∀ (i k : ℕ) (hk : k < hs.length),
      objGet (specRow values hs i) (hs.get ⟨k, hk⟩)
        = some (Dashboard.classifyField (values.get? (i + k))) := by
  intro hs
  induction hs with
  | nil => intro _ i k hk; exact absurd hk (by simp)
  | cons h t ih =>
      intro hnd i k hk
      cases k with
      | zero => simp [specRow, objGet]
      | succ k2 =>
          have hk2 : k2 < t.length := by simpa using hk
          have hget : (h :: t).get ⟨k2 + 1, hk⟩ = t.get ⟨k2, hk2⟩ := rfl
          have hmem : t.get ⟨k2, hk2⟩ ∈ t := List.get_mem t k2 hk2
          have hne : h ≠ t.get ⟨k2, hk2⟩ := by
            intro hcon
            exact (List.nodup_cons.mp hnd).1 (hcon ▸ hmem)
          rw [hget]
          show objGet ((h, _) :: specRow values t (i + 1)) (t.get ⟨k2, hk2⟩)
              = some (Dashboard.classifyField (values.get? (i + (k2 + 1))))
          rw [objGet, if_neg hne]
          have harith : i + 1 + k2 = i + (k2 + 1) := by omega
          rw [← harith]
          exact ih (List.nodup_cons.mp hnd).2 (i + 1) k2 hk2

theorem le_foldlMax (t : List ℚ) : ∀ a : ℚ, a ≤ t.foldl max a := by
  induction t with
  | nil => intro a; simp
  | cons h r ih =>
      intro a
      calc a ≤ max a h := le_max_left a h
        _ ≤ r.foldl max (max a h) := ih (max a h)
        _ = (h :: r).foldl max a := by simp [List.foldl]

theorem mem_le_foldlMax (t : List ℚ) : ∀ (a x : ℚ), x ∈ t → x ≤ t.foldl max a := by
  induction t with
  | nil => intro a x hx; exact absurd hx (by simp)
  | cons h r ih =>
      intro a x hx
      rcases List.mem_cons.mp hx with hx1 | hx2
      · calc x = h := hx1
          _ ≤ max a h := le_max_right a h
          _ ≤ r.foldl max (max a h) := le_foldlMax r (max a h)
          _ = (h :: r).foldl max a := by simp [List.foldl]
      · calc x ≤ r.foldl max (max a h) := ih (max a h) x hx2
          _ = (h :: r).foldl max a := by simp [List.foldl]

theorem chartMax_pos (exps : List ℚ) (hne : exps ≠ [])
    (hpos : ∀ x ∈ exps, 0 < x) : 0 < Dashboard.chartMax exps := by
  match exps, hne with
  | h :: t, _ =>
      have h0 : 0 < h := hpos h (by simp)
      calc (0 : ℚ) < h := h0
        _ ≤ t.foldl max h := le_foldlMax t h
        _ = Dashboard.chartMax (h :: t) := rfl

theorem mem_le_chartMax (exps : List ℚ) (x : ℚ) (hx : x ∈ exps) :
    x ≤ Dashboard.chartMax exps := by
  match exps, hx with
  | h :: t, hx =>
      rcases List.mem_cons.mp hx with hx1 | hx2
      · calc x = h := hx1
          _ ≤ t.foldl max h := le_foldlMax t h
          _ = Dashboard.chartMax (h :: t) := rfl
      · exact mem_le_foldlMax t h x hx2

/-- C1: For every well-formed CSV text (fields containing no embedded commas
or newlines, distinct headers), `parseCSV` trims the text, splits it into
lines, takes the comma-split first line as headers, and returns one object per
remaining line whose keys are exactly the headers, each header bound to the
classification of the comma-split field at its index; a field value that both
starts and ends with a double quote has that one leading and one trailing
quote removed. -/
theorem parseCSV_wellformed_structure (text : String)
    (hnd : (Dashboard.csvHeaders text).Nodup)
    (row : JsObj) (hrow : row ∈ Dashboard.parseCSV text)
    (line : String) (hline : line ∈ (Dashboard.csvLines text).drop 1)
    (k : ℕ) (hk : k < (Dashboard.csvHeaders text).length)
    (v : String) (hv1 : v.toList.head? = some '"') (hv2 : v.toList.getLast? = some '"') :
    Dashboard.parseCSV text
        = ((Dashboard.csvLines text).drop 1).map
            (Dashboard.parseLine (Dashboard.csvHeaders text)) ∧
    (Dashboard.parseCSV text).length = (Dashboard.csvLines text).length - 1 ∧
    row.map Prod.fst = Dashboard.csvHeaders text ∧
    objGet (Dashboard.parseLine (Dashboard.csvHeaders text) line)
        ((Dashboard.csvHeaders text).get ⟨k, hk⟩)
      = some (Dashboard.classifyField ((jsSplit line ',').get? k)) ∧
    Dashboard.jsStripQuotes v = String.mk ((v.toList.drop 1).dropLast) := by
  refine ⟨rfl, ?_, ?_, ?_, ?_⟩
  · simp [Dashboard.parseCSV]
  · simp only [Dashboard.parseCSV] at hrow
    obtain ⟨line2, hline2, heq⟩ := List.mem_map.mp hrow
    rw [← heq, parseLine_eq_specRow _ _ hnd, specRow_keys]
  · rw [parseLine_eq_specRow _ _ hnd]
    have h := specRow_objGet (jsSplit line ',') _ hnd 0 k hk
    rw [Nat.zero_add] at h
    exact h
  · cases hl : v.toList with
    | nil => rw [hl] at hv1; exact absurd hv1 (by simp)
    | cons c rest =>
        rw [hl] at hv1 hv2
        have hc : c = '"' := by simpa using hv1
        subst hc
        simp only [Dashboard.jsStripQuotes, hl]
        simp [hv2]

/-- C1 witness: the theorem applied to the concrete text `"a,b\n\"x\",5"`,
row `[("a", "x"), ("b", 5)]`, data line `"\"x\",5"`, header index `0`, and
quoted value `"\"q\""`. -/
theorem parseCSV_wellformed_structure_witness :
    ((Dashboard.csvHeaders "a,b\n\"x\",5").Nodup ∧
      [("a", JsVal.str "x"), ("b", JsVal.num (JsNum.rat 5))]
          ∈ Dashboard.parseCSV "a,b\n\"x\",5" ∧
      "\"x\",5" ∈ (Dashboard.csvLines "a,b\n\"x\",5").drop 1 ∧
      0 < (Dashboard.csvHeaders "a,b\n\"x\",5").length ∧
      "\"q\"".toList.head? = some '"' ∧ "\"q\"".toList.getLast? = some '"') ∧
    (Dashboard.parseCSV "a,b\n\"x\",5"
        = ((Dashboard.csvLines "a,b\n\"x\",5").drop 1).map
            (Dashboard.parseLine (Dashboard.csvHeaders "a,b\n\"x\",5")) ∧
    (Dashboard.parseCSV "a,b\n\"x\",5").length
        = (Dashboard.csvLines "a,b\n\"x\",5").length - 1 ∧
    ([("a", JsVal.str "x"), ("b", JsVal.num (JsNum.rat 5))] : JsObj).map Prod.fst
        = Dashboard.csvHeaders "a,b\n\"x\",5" ∧
    objGet (Dashboard.parseLine (Dashboard.csvHeaders "a,b\n\"x\",5") "\"x\",5")
        ((Dashboard.csvHeaders "a,b\n\"x\",5").get ⟨0, by decide⟩)
      = some (Dashboard.classifyField ((jsSplit "\"x\",5" ',').get? 0)) ∧
    Dashboard.jsStripQuotes "\"q\"" = String.mk (("\"q\"".toList.drop 1).dropLast)) :=
  ⟨by decide,
   parseCSV_wellformed_structure "a,b\n\"x\",5" (by decide)
     [("a", JsVal.str "x"), ("b", JsVal.num (JsNum.rat 5))] (by decide)
     "\"x\",5" (by decide) 0 (by decide) "\"q\"" (by decide) (by decide)⟩

/-- C2: `parseCSV` does not handle embedded delimiters: on
`"a,b\n\"hello, world\",5"`, whose data line contains a quoted field with a
comma inside the quotes, `parseCSV` splits inside that field (binding `a` to
`"\"hello"`), while the reference quote-aware parser binds `a` to the whole
field `"hello, world"`, so the two results disagree. -/
theorem parseCSV_embedded_delimiter :
    objGet ((Dashboard.parseCSV "a,b\n\"hello, world\",5").headI) "a"
        = some (JsVal.str "\"hello") ∧
    objGet ((referenceParseCSV "a,b\n\"hello, world\",5").headI) "a"
        = some (JsVal.str "hello, world") ∧
    Dashboard.parseCSV "a,b\n\"hello, world\",5"
        ≠ referenceParseCSV "a,b\n\"hello, world\",5" := by
  decide

/-- C3: In every parsed row (distinct headers), each header is bound to:
`parseFloat` of the quote-stripped field when it is non-empty and passes the
`!isNaN` test; `null` when it is the empty string or `'None'`; the raw string
otherwise; and the `undefined` value exactly when the data line has fewer
comma-separated fields than there are headers (the field read past the end of
`values`). -/
theorem parseCSV_cell_values (text : String)
    (hnd : (Dashboard.csvHeaders text).Nodup)
    (line : String) (hline : line ∈ (Dashboard.csvLines text).drop 1)
    (k : ℕ) (hk : k < (Dashboard.csvHeaders text).length) :
    Dashboard.parseCSV text
        = ((Dashboard.csvLines text).drop 1).map
            (Dashboard.parseLine (Dashboard.csvHeaders text)) ∧
    ((jsSplit line ',').length ≤ k ↔ (jsSplit line ',').get? k = none) ∧
    objGet (Dashboard.parseLine (Dashboard.csvHeaders text) line)
        ((Dashboard.csvHeaders text).get ⟨k, hk⟩)
      = some (match (jsSplit line ',').get? k with
          | none => JsVal.undef
          | some raw =>
              if Dashboard.jsStripQuotes raw ≠ "" ∧
                  jsNumberIsNaN (Dashboard.jsStripQuotes raw) = false ∧
                  Dashboard.jsStripQuotes raw ≠ "" then
                JsVal.num (jsParseFloat (Dashboard.jsStripQuotes raw))
              else if Dashboard.jsStripQuotes raw = ""
                  ∨ Dashboard.jsStripQuotes raw = "None" then JsVal.null
              else JsVal.str (Dashboard.jsStripQuotes raw)) := by
  refine ⟨rfl, List.get?_eq_none.symm, ?_⟩
  rw [parseLine_eq_specRow _ _ hnd]
  have h := specRow_objGet (jsSplit line ',') _ hnd 0 k hk
  rw [Nat.zero_add] at h
  rw [h]
  cases (jsSplit line ',').get? k with
  | none => rfl
  | some raw => rfl

/-- C3 witness: the theorem applied to the text `"a,b,c\n1,None"` (a data line
with fewer fields than headers) at the line `"1,None"` and header index `0`. -/
theorem parseCSV_cell_values_witness :
    ((Dashboard.csvHeaders "a,b,c\n1,None").Nodup ∧
      "1,None" ∈ (Dashboard.csvLines "a,b,c\n1,None").drop 1 ∧
      0 < (Dashboard.csvHeaders "a,b,c\n1,None").length) ∧
    (Dashboard.parseCSV "a,b,c\n1,None"
        = ((Dashboard.csvLines "a,b,c\n1,None").drop 1).map
            (Dashboard.parseLine (Dashboard.csvHeaders "a,b,c\n1,None")) ∧
    ((jsSplit "1,None" ',').length ≤ 0 ↔ (jsSplit "1,None" ',').get? 0 = none) ∧
    objGet (Dashboard.parseLine (Dashboard.csvHeaders "a,b,c\n1,None") "1,None")
        ((Dashboard.csvHeaders "a,b,c\n1,None").get ⟨0, by decide⟩)
      = some (match (jsSplit "1,None" ',').get? 0 with
          | none => JsVal.undef
          | some raw =>
              if Dashboard.jsStripQuotes raw ≠ "" ∧
                  jsNumberIsNaN (Dashboard.jsStripQuotes raw) = false ∧
                  Dashboard.jsStripQuotes raw ≠ "" then
                JsVal.num (jsParseFloat (Dashboard.jsStripQuotes raw))
              else if Dashboard.jsStripQuotes raw = ""
                  ∨ Dashboard.jsStripQuotes raw = "None" then JsVal.null
              else JsVal.str (Dashboard.jsStripQuotes raw))) :=
  ⟨by decide,
   parseCSV_cell_values "a,b,c\n1,None" (by decide) "1,None" (by decide) 0 (by decide)⟩

/-- C10: the two copies of the CSV parser are equivalent: the `parseCSV` of
`src/dashboard/src/App.jsx` and the `parseCSV` of `src/unnamed/part_001`
return identical arrays of objects on every input text. -/
theorem parseCSV_copies_agree (text : String) :
    Dashboard.parseCSV text = Part001.parseCSV text := by
  have hcf : ∀ o, Dashboard.classifyField o = Part001.classifyField o := by
    intro o
    cases o with
    | none => rfl
    | some v => rfl
  have hins : ∀ (obj : JsObj) (k : String) (v : JsVal),
      Dashboard.objInsert obj k v = Part001.objInsert obj k v := by
    intro obj k v; rfl
  have hgo : ∀ (values hs : List String) (i : ℕ) (obj : JsObj),
      Dashboard.parseLineGo values hs i obj = Part001.parseLineGo values hs i obj := by
    intro values hs
    induction hs with
    | nil => intro i obj; rfl
    | cons h t ih =>
        intro i obj
        rw [Dashboard.parseLineGo, Part001.parseLineGo, hcf, hins, ih]
  have hline : ∀ (hs : List String) (line : String),
      Dashboard.parseLine hs line = Part001.parseLine hs line := by
    intro hs line
    rw [Dashboard.parseLine, Part001.parseLine, hgo]
  simp only [Dashboard.parseCSV, Part001.parseCSV, Dashboard.csvLines, Dashboard.csvHeaders]
  congr 1
  exact funext (fun line => hline _ line)

/-- C4 (amended): if any of the four fetch/text-read steps of the initial load
fails, `App` stores the (first) failure's message in the error state, clears
the loading state, leaves every data cell (metadata, comparison, elements,
policyImpacts) at its initial value, and — whenever the message is a non-empty
string — renders the single error element showing that message. -/
theorem loadData_failure_behaviour (f : String → Except String String) (msg : String)
    (hfail :
      f "/data/metadata.csv" = Except.error msg ∨
      ((∃ t, f "/data/metadata.csv" = Except.ok t) ∧
        f "/data/comparison.csv" = Except.error msg) ∨
      ((∃ t, f "/data/metadata.csv" = Except.ok t) ∧
        (∃ t, f "/data/comparison.csv" = Except.ok t) ∧
        f "/data/uc_elements.csv" = Except.error msg) ∨
      ((∃ t, f "/data/metadata.csv" = Except.ok t) ∧
        (∃ t, f "/data/comparison.csv" = Except.ok t) ∧
        (∃ t, f "/data/uc_elements.csv" = Except.ok t) ∧
        f "/data/policy_impacts.csv" = Except.error msg))
    (hmsg : msg ≠ "") :
    Dashboard.loadData f Dashboard.initState
        = { Dashboard.initState with error := some msg, loading := false } ∧
    (Dashboard.loadData f Dashboard.initState).metadata = none ∧
    (Dashboard.loadData f Dashboard.initState).comparison = [] ∧
    (Dashboard.loadData f Dashboard.initState).elements = [] ∧
    (Dashboard.loadData f Dashboard.initState).policyImpacts = [] ∧
    Dashboard.renderApp (Dashboard.loadData f Dashboard.initState)
        = Dashboard.RenderResult.errorView ("Error loading data: " ++ msg) := by
  have hstate : Dashboard.loadData f Dashboard.initState
      = { Dashboard.initState with error := some msg, loading := false } := by
    rcases hfail with h1 | ⟨⟨t1, h1⟩, h2⟩ | ⟨⟨t1, h1⟩, ⟨t2, h2⟩, h3⟩
      | ⟨⟨t1, h1⟩, ⟨t2, h2⟩, ⟨t3, h3⟩, h4⟩
    · simp [Dashboard.loadData, h1]
    · simp [Dashboard.loadData, h1, h2]
    · simp [Dashboard.loadData, h1, h2, h3]
    · simp [Dashboard.loadData, h1, h2, h3, h4]
  refine ⟨hstate, ?_, ?_, ?_, ?_, ?_⟩ <;> rw [hstate]
  · rfl
  · rfl
  · rfl
  · rfl
  · simp [Dashboard.renderApp, Dashboard.initState, hmsg]

/-- C4 witness: the failure theorem applied to the fetch function that rejects
every URL with the message `"boom"`. -/
theorem loadData_failure_behaviour_witness :
    (((fun _ : String => (Except.error "boom" : Except String String))
          "/data/metadata.csv" = Except.error "boom") ∧ "boom" ≠ "") ∧
    (Dashboard.loadData (fun _ : String => (Except.error "boom" : Except String String))
          Dashboard.initState
        = { Dashboard.initState with error := some "boom", loading := false } ∧
    (Dashboard.loadData (fun _ : String => (Except.error "boom" : Except String String))
          Dashboard.initState).metadata = none ∧
    (Dashboard.loadData (fun _ : String => (Except.error "boom" : Except String String))
          Dashboard.initState).comparison = [] ∧
    (Dashboard.loadData (fun _ : String => (Except.error "boom" : Except String String))
          Dashboard.initState).elements = [] ∧
    (Dashboard.loadData (fun _ : String => (Except.error "boom" : Except String String))
          Dashboard.initState).policyImpacts = [] ∧
    Dashboard.renderApp (Dashboard.loadData
          (fun _ : String => (Except.error "boom" : Except String String))
          Dashboard.initState)
        = Dashboard.RenderResult.errorView ("Error loading data: " ++ "boom")) :=
  ⟨⟨rfl, by decide⟩,
   loadData_failure_behaviour (fun _ => Except.error "boom") "boom" (Or.inl rfl) (by decide)⟩

/-- C4 counterexample: an exception whose message is the empty string refutes
the claim as stated — the message is stored and loading is cleared, but the
error test `if (error)` is a truthiness test, so the app renders the (empty)
dashboard, not an error message element. -/
theorem loadData_empty_message_counterexample :
    Dashboard.loadData (fun _ : String => (Except.error "" : Except String String))
          Dashboard.initState
        = { Dashboard.initState with error := some "", loading := false } ∧
    Dashboard.renderApp (Dashboard.loadData
          (fun _ : String => (Except.error "" : Except String String))
          Dashboard.initState)
        = Dashboard.RenderResult.dashboard none [] [] [] ∧
    Dashboard.renderApp (Dashboard.loadData
          (fun _ : String => (Except.error "" : Except String String))
          Dashboard.initState)
        ≠ Dashboard.RenderResult.errorView ("Error loading data: " ++ "") := by
  decide

/-- C5: when all four fetches succeed, `App` parses each CSV text with
`parseCSV`, stores the comparison, elements and policy-impacts arrays whole,
stores only the first parsed row of `metadata.csv` as the metadata object, and
clears loading; and the load depends only on the four static URLs
`/data/metadata.csv`, `/data/comparison.csv`, `/data/uc_elements.csv`,
`/data/policy_impacts.csv` (any fetch function agreeing on them loads the same
state). -/
theorem loadData_success_behaviour (f g : String → Except String String)
    (m c e p : String)
    (h1 : f "/data/metadata.csv" = Except.ok m)
    (h2 : f "/data/comparison.csv" = Except.ok c)
    (h3 : f "/data/uc_elements.csv" = Except.ok e)
    (h4 : f "/data/policy_impacts.csv" = Except.ok p)
    (hfg : ∀ u ∈ Dashboard.dataUrls, f u = g u) :
    Dashboard.loadData f Dashboard.initState
        = { metadata := (Dashboard.parseCSV m).head?,
            comparison := Dashboard.parseCSV c,
            elements := Dashboard.parseCSV e,
            policyImpacts := Dashboard.parseCSV p,
            loading := false, error := none } ∧
    Dashboard.loadData f Dashboard.initState
        = Dashboard.loadData g Dashboard.initState := by
  have hg1 : g "/data/metadata.csv" = Except.ok m := by
    rw [← hfg "/data/metadata.csv" (by simp [Dashboard.dataUrls])]; exact h1
  have hg2 : g "/data/comparison.csv" = Except.ok c := by
    rw [← hfg "/data/comparison.csv" (by simp [Dashboard.dataUrls])]; exact h2
  have hg3 : g "/data/uc_elements.csv" = Except.ok e := by
    rw [← hfg "/data/uc_elements.csv" (by simp [Dashboard.dataUrls])]; exact h3
  have hg4 : g "/data/policy_impacts.csv" = Except.ok p := by
    rw [← hfg "/data/policy_impacts.csv" (by simp [Dashboard.dataUrls])]; exact h4
  constructor
  · simp [Dashboard.loadData, h1, h2, h3, h4, Dashboard.initState]
  · simp [Dashboard.loadData, h1, h2, h3, h4, hg1, hg2, hg3, hg4]

/-- C5 witness: the success theorem applied to a fetch function answering the
four data URLs with the text `"a,b\n1,2"` and a second function agreeing on
them (but failing elsewhere). -/
theorem loadData_success_behaviour_witness :
    (((fun _ : String => (Except.ok "a,b\n1,2" : Except String String))
          "/data/metadata.csv" = Except.ok "a,b\n1,2") ∧
      (∀ u ∈ Dashboard.dataUrls,
        (fun _ : String => (Except.ok "a,b\n1,2" : Except String String)) u
          = (fun u2 : String =>
              if u2 = "" then (Except.error "off-list" : Except String String)
              else Except.ok "a,b\n1,2") u)) ∧
    (Dashboard.loadData (fun _ : String => (Except.ok "a,b\n1,2" : Except String String))
          Dashboard.initState
        = { metadata := (Dashboard.parseCSV "a,b\n1,2").head?,
            comparison := Dashboard.parseCSV "a,b\n1,2",
            elements := Dashboard.parseCSV "a,b\n1,2",
            policyImpacts := Dashboard.parseCSV "a,b\n1,2",
            loading := false, error := none } ∧
    Dashboard.loadData (fun _ : String => (Except.ok "a,b\n1,2" : Except String String))
          Dashboard.initState
        = Dashboard.loadData
            (fun u2 : String =>
              if u2 = "" then (Except.error "off-list" : Except String String)
              else Except.ok "a,b\n1,2")
            Dashboard.initState) :=
  ⟨⟨rfl, by simp [Dashboard.dataUrls]⟩,
   loadData_success_behaviour
     (fun _ => Except.ok "a,b\n1,2")
     (fun u2 => if u2 = "" then Except.error "off-list" else Except.ok "a,b\n1,2")
     "a,b\n1,2" "a,b\n1,2" "a,b\n1,2" "a,b\n1,2" rfl rfl rfl rfl
     (by simp [Dashboard.dataUrls])⟩

/-- C6 counterexample: at the numeric value `12566` with unit `'£'`,
`formatValue` returns `"£12,566"` — the locale-formatted value — and not
`'£' + value`, whose string conversion is `"£12566"`. -/
theorem formatValue_pound_locale_counterexample :
    Part001.formatValue (JsVal.num (JsNum.rat 12566)) (JsVal.str "£") JsVal.null
        = "£12,566" ∧
    jsValTemplate (JsVal.num (JsNum.rat 12566)) = "12566" ∧
    ("£12,566" : String) ≠ "£" ++ jsValTemplate (JsVal.num (JsNum.rat 12566)) := by
  decide

/-- C6 (amended): for every non-null, non-undefined value, `formatValue`
returns `'£' + locale-formatted value` for unit `'£'`, `'£' + value + 'bn'`
for `'bn'`, `value + '%'` for `'%'`, locale-formatted `value + 'k'` for `'k'`,
`value + 'm'` for `'m'`, and `value + unit` otherwise, appending
`' (' + pct + '%)'` when a percentage is given (the `withPct` wrapper); for
null or undefined values it returns the em dash `'—'`. -/
theorem formatValue_unit_cases (val unitX pct : JsVal) (u : String)
    (hv1 : val ≠ JsVal.null) (hv2 : val ≠ JsVal.undef)
    (hu1 : u ≠ "£") (hu2 : u ≠ "bn") (hu3 : u ≠ "%") (hu4 : u ≠ "k") (hu5 : u ≠ "m") :
    Part001.formatValue JsVal.null unitX pct = "—" ∧
    Part001.formatValue JsVal.undef unitX pct = "—" ∧
    Part001.formatValue val (JsVal.str "£") pct
        = Part001.withPct pct ("£" ++ jsValToLocaleString val) ∧
    Part001.formatValue val (JsVal.str "bn") pct
        = Part001.withPct pct ("£" ++ jsValTemplate val ++ "bn") ∧
    Part001.formatValue val (JsVal.str "%") pct
        = Part001.withPct pct (jsValTemplate val ++ "%") ∧
    Part001.formatValue val (JsVal.str "k") pct
        = Part001.withPct pct (jsValToLocaleString val ++ "k") ∧
    Part001.formatValue val (JsVal.str "m") pct
        = Part001.withPct pct (jsValTemplate val ++ "m") ∧
    Part001.formatValue val (JsVal.str u) pct
        = Part001.withPct pct (jsValTemplate val ++ u) := by
  have hval : ¬(val = JsVal.null ∨ val = JsVal.undef) := not_or.mpr ⟨hv1, hv2⟩
  refine ⟨by simp [Part001.formatValue], by simp [Part001.formatValue], ?_, ?_, ?_, ?_, ?_, ?_⟩
  · simp only [Part001.formatValue]
    rw [if_neg hval]
    simp
  · simp only [Part001.formatValue]
    rw [if_neg hval]
    simp
  · simp only [Part001.formatValue]
    rw [if_neg hval]
    simp
  · simp only [Part001.formatValue]
    rw [if_neg hval]
    simp
  · simp only [Part001.formatValue]
    rw [if_neg hval]
    simp
  · simp only [Part001.formatValue]
    rw [if_neg hval]
    simp [jsValTemplate, hu1, hu2, hu3, hu4, hu5]

/-- C6 witness: the amended formatting theorem applied to the numeric value
`7`, a non-unit string `"zz"` for the dash cases, no percentage, and the
unknown unit `"x"`. -/
theorem formatValue_unit_cases_witness :
    (JsVal.num (JsNum.rat 7) ≠ JsVal.null ∧ JsVal.num (JsNum.rat 7) ≠ JsVal.undef ∧
      ("x" : String) ≠ "£" ∧ ("x" : String) ≠ "bn" ∧ ("x" : String) ≠ "%" ∧
      ("x" : String) ≠ "k" ∧ ("x" : String) ≠ "m") ∧
    (Part001.formatValue JsVal.null (JsVal.str "zz") JsVal.null = "—" ∧
    Part001.formatValue JsVal.undef (JsVal.str "zz") JsVal.null = "—" ∧
    Part001.formatValue (JsVal.num (JsNum.rat 7)) (JsVal.str "£") JsVal.null
        = Part001.withPct JsVal.null ("£" ++ jsValToLocaleString (JsVal.num (JsNum.rat 7))) ∧
    Part001.formatValue (JsVal.num (JsNum.rat 7)) (JsVal.str "bn") JsVal.null
        = Part001.withPct JsVal.null
            ("£" ++ jsValTemplate (JsVal.num (JsNum.rat 7)) ++ "bn") ∧
    Part001.formatValue (JsVal.num (JsNum.rat 7)) (JsVal.str "%") JsVal.null
        = Part001.withPct JsVal.null (jsValTemplate (JsVal.num (JsNum.rat 7)) ++ "%") ∧
    Part001.formatValue (JsVal.num (JsNum.rat 7)) (JsVal.str "k") JsVal.null
        = Part001.withPct JsVal.null
            (jsValToLocaleString (JsVal.num (JsNum.rat 7)) ++ "k") ∧
    Part001.formatValue (JsVal.num (JsNum.rat 7)) (JsVal.str "m") JsVal.null
        = Part001.withPct JsVal.null (jsValTemplate (JsVal.num (JsNum.rat 7)) ++ "m") ∧
    Part001.formatValue (JsVal.num (JsNum.rat 7)) (JsVal.str "x") JsVal.null
        = Part001.withPct JsVal.null (jsValTemplate (JsVal.num (JsNum.rat 7)) ++ "x")) :=
  ⟨by decide,
   formatValue_unit_cases (JsVal.num (JsNum.rat 7)) (JsVal.str "zz") JsVal.null "x"
     (by decide) (by decide) (by decide) (by decide) (by decide) (by decide) (by decide)⟩

/-- C7: `StatusBadge` maps `close_match`, `moderate_diff` and
`large_discrepancy` to the labels `Close Match`, `Moderate Diff` and
`Large Gap`, rendered in a span carrying the corresponding background and text
colours, and the three background colours and the three text colours are
pairwise distinct. -/
theorem statusBadge_colors :
    Dashboard.statusBadge (JsVal.str "close_match")
        = ⟨"#dcfce7", "#166534", "Close Match"⟩ ∧
    Dashboard.statusBadge (JsVal.str "moderate_diff")
        = ⟨"#fef3c7", "#92400e", "Moderate Diff"⟩ ∧
    Dashboard.statusBadge (JsVal.str "large_discrepancy")
        = ⟨"#fee2e2", "#991b1b", "Large Gap"⟩ ∧
    (Dashboard.statusBadge (JsVal.str "close_match")).backgroundColor
        ≠ (Dashboard.statusBadge (JsVal.str "moderate_diff")).backgroundColor ∧
    (Dashboard.statusBadge (JsVal.str "close_match")).backgroundColor
        ≠ (Dashboard.statusBadge (JsVal.str "large_discrepancy")).backgroundColor ∧
    (Dashboard.statusBadge (JsVal.str "moderate_diff")).backgroundColor
        ≠ (Dashboard.statusBadge (JsVal.str "large_discrepancy")).backgroundColor ∧
    (Dashboard.statusBadge (JsVal.str "close_match")).color
        ≠ (Dashboard.statusBadge (JsVal.str "moderate_diff")).color ∧
    (Dashboard.statusBadge (JsVal.str "close_match")).color
        ≠ (Dashboard.statusBadge (JsVal.str "large_discrepancy")).color ∧
    (Dashboard.statusBadge (JsVal.str "moderate_diff")).color
        ≠ (Dashboard.statusBadge (JsVal.str "large_discrepancy")).color := by
  decide

/-- On any status whose property key is not inherited from
`Object.prototype`, the full member-read semantics of `StatusBadge` agrees
with the own-property rendering `statusBadge`. -/
theorem statusBadgeFull_agrees (status : JsVal)
    (hp : jsPropKey status ∉ Dashboard.objectPrototypeKeys) :
    Dashboard.statusBadgeFull status =
      ⟨some (Dashboard.statusBadge status).backgroundColor,
       some (Dashboard.statusBadge status).color,
       some (Dashboard.statusBadge status).child⟩ := by
  simp only [Dashboard.statusBadgeFull, Dashboard.colorsRead, Dashboard.statusBadge,
    Dashboard.statusBadgeStyle]
  cases h : Dashboard.styleLookup Dashboard.statusColorTable (jsPropKey status) with
  | some c => simp
  | none => simp [hp]

/-- C9 counterexample: the status string `"constructor"` is none of the three
known statuses, yet the member read `colors["constructor"]` finds the truthy
`Object.prototype.constructor`, the `||` keeps it, and destructuring yields
`undefined` background, text colour and label — not the `moderate_diff`
colours and the label `Moderate Diff` the claim promises. -/
theorem statusBadge_prototype_counterexample :
    ("constructor" : String) ≠ "close_match" ∧
    ("constructor" : String) ≠ "moderate_diff" ∧
    ("constructor" : String) ≠ "large_discrepancy" ∧
    Dashboard.statusBadgeFull (JsVal.str "constructor") = ⟨none, none, none⟩ ∧
    Dashboard.statusBadgeFull (JsVal.str "constructor")
        ≠ ⟨some "#fef3c7", some "#92400e", some "Moderate Diff"⟩ := by
  decide

/-- C9 (amended): `StatusBadge` never fails, but the fallback is narrower
than claimed: any status string that is neither one of the three known
statuses nor one of the property names inherited from `Object.prototype`
(and likewise `null` and `undefined`, whose keys `"null"`/`"undefined"` are
neither) reads `undefined`, so the `||` falls back to the `moderate_diff`
colours and the label `Moderate Diff`; a status naming an inherited property
(such as `"constructor"`) keeps the truthy inherited value instead, and the
badge renders with `undefined` colours and label. -/
theorem statusBadge_fallback_amended (s : String)
    (h1 : s ≠ "close_match") (h2 : s ≠ "moderate_diff") (h3 : s ≠ "large_discrepancy")
    (hp : s ∉ Dashboard.objectPrototypeKeys) :
    Dashboard.statusBadgeFull (JsVal.str s)
        = ⟨some "#fef3c7", some "#92400e", some "Moderate Diff"⟩ ∧
    Dashboard.statusBadgeFull JsVal.null
        = ⟨some "#fef3c7", some "#92400e", some "Moderate Diff"⟩ ∧
    Dashboard.statusBadgeFull JsVal.undef
        = ⟨some "#fef3c7", some "#92400e", some "Moderate Diff"⟩ ∧
    Dashboard.statusBadgeFull (JsVal.str "constructor") = ⟨none, none, none⟩ := by
  refine ⟨?_, by decide, by decide, by decide⟩
  simp only [Dashboard.statusBadgeFull, Dashboard.colorsRead, Dashboard.statusColorTable,
    Dashboard.styleLookup, jsPropKey, jsValTemplate]
  simp [Ne.symm h1, Ne.symm h2, Ne.symm h3, hp]

/-- C9 witness: the amended fallback theorem applied to the unknown status
string `"bogus"`, which is neither a known status nor an `Object.prototype`
property name. -/
theorem statusBadge_fallback_amended_witness :
    (("bogus" : String) ≠ "close_match" ∧ ("bogus" : String) ≠ "moderate_diff" ∧
      ("bogus" : String) ≠ "large_discrepancy" ∧
      ("bogus" : String) ∉ Dashboard.objectPrototypeKeys) ∧
    (Dashboard.statusBadgeFull (JsVal.str "bogus")
        = ⟨some "#fef3c7", some "#92400e", some "Moderate Diff"⟩ ∧
    Dashboard.statusBadgeFull JsVal.null
        = ⟨some "#fef3c7", some "#92400e", some "Moderate Diff"⟩ ∧
    Dashboard.statusBadgeFull JsVal.undef
        = ⟨some "#fef3c7", some "#92400e", some "Moderate Diff"⟩ ∧
    Dashboard.statusBadgeFull (JsVal.str "constructor") = ⟨none, none, none⟩) :=
  ⟨by decide,
   statusBadge_fallback_amended "bogus" (by decide) (by decide) (by decide) (by decide)⟩

/-- C8: for a non-empty element list with positive `expenditure_bn` values,
`ElementsChart` renders one bar per element (same length), each of width
`(expenditure_bn / max) * 100` per cent; an element carrying the maximum
expenditure gets width `100`, and widths are monotone in `expenditure_bn`. -/
theorem elementsChart_bar_widths (elements : List JsObj)
    (hne : elements ≠ [])
    (hpos : ∀ el ∈ elements, 0 < Dashboard.elementExp el)
    (elM : JsObj) (hmem : elM ∈ elements)
    (hmax : Dashboard.elementExp elM
        = Dashboard.chartMax (elements.map Dashboard.elementExp))
    (e1 : JsObj) (he1 : e1 ∈ elements) (e2 : JsObj) (he2 : e2 ∈ elements)
    (h12 : Dashboard.elementExp e1 ≤ Dashboard.elementExp e2) :
    (Dashboard.elementsChartWidths elements).length = elements.length ∧
    Dashboard.elementsChartWidths elements
        = elements.map (fun el => Dashboard.elementExp el
            / Dashboard.chartMax (elements.map Dashboard.elementExp) * 100) ∧
    Dashboard.elementExp elM
        / Dashboard.chartMax (elements.map Dashboard.elementExp) * 100 = 100 ∧
    Dashboard.elementExp e1
          / Dashboard.chartMax (elements.map Dashboard.elementExp) * 100
      ≤ Dashboard.elementExp e2
          / Dashboard.chartMax (elements.map Dashboard.elementExp) * 100 := by
  have hMpos : 0 < Dashboard.chartMax (elements.map Dashboard.elementExp) := by
    apply chartMax_pos
    · simpa using hne
    · intro x hx
      obtain ⟨el, hel, hx2⟩ := List.mem_map.mp hx
      rw [← hx2]
      exact hpos el hel
  refine ⟨by simp [Dashboard.elementsChartWidths], rfl, ?_, ?_⟩
  · rw [hmax, div_self (ne_of_gt hMpos), one_mul]
  · have hdiv : Dashboard.elementExp e1
          / Dashboard.chartMax (elements.map Dashboard.elementExp)
        ≤ Dashboard.elementExp e2
          / Dashboard.chartMax (elements.map Dashboard.elementExp) := by
      rw [div_eq_mul_inv, div_eq_mul_inv]
      exact mul_le_mul_of_nonneg_right h12 (inv_nonneg.mpr hMpos.le)
    exact mul_le_mul_of_nonneg_right hdiv (by norm_num)

/-- C8 witness: the chart theorem applied to two elements of expenditure `2`
and `4` billion. -/
theorem elementsChart_bar_widths_witness :
    (([[("expenditure_bn", JsVal.num (JsNum.rat 2))],
        [("expenditure_bn", JsVal.num (JsNum.rat 4))]] : List JsObj) ≠ [] ∧
      (∀ el ∈ ([[("expenditure_bn", JsVal.num (JsNum.rat 2))],
        [("expenditure_bn", JsVal.num (JsNum.rat 4))]] : List JsObj),
        0 < Dashboard.elementExp el) ∧
      [("expenditure_bn", JsVal.num (JsNum.rat 4))]
          ∈ ([[("expenditure_bn", JsVal.num (JsNum.rat 2))],
              [("expenditure_bn", JsVal.num (JsNum.rat 4))]] : List JsObj) ∧
      Dashboard.elementExp [("expenditure_bn", JsVal.num (JsNum.rat 4))]
          = Dashboard.chartMax
              (([[("expenditure_bn", JsVal.num (JsNum.rat 2))],
                 [("expenditure_bn", JsVal.num (JsNum.rat 4))]] : List JsObj).map
                Dashboard.elementExp) ∧
      Dashboard.elementExp [("expenditure_bn", JsVal.num (JsNum.rat 2))]
          ≤ Dashboard.elementExp [("expenditure_bn", JsVal.num (JsNum.rat 4))]) ∧
    ((Dashboard.elementsChartWidths
          [[("expenditure_bn", JsVal.num (JsNum.rat 2))],
           [("expenditure_bn", JsVal.num (JsNum.rat 4))]]).length
        = ([[("expenditure_bn", JsVal.num (JsNum.rat 2))],
            [("expenditure_bn", JsVal.num (JsNum.rat 4))]] : List JsObj).length ∧
    Dashboard.elementsChartWidths
          [[("expenditure_bn", JsVal.num (JsNum.rat 2))],
           [("expenditure_bn", JsVal.num (JsNum.rat 4))]]
        = ([[("expenditure_bn", JsVal.num (JsNum.rat 2))],
            [("expenditure_bn", JsVal.num (JsNum.rat 4))]] : List JsObj).map
            (fun el => Dashboard.elementExp el
              / Dashboard.chartMax
                  (([[("expenditure_bn", JsVal.num (JsNum.rat 2))],
                     [("expenditure_bn", JsVal.num (JsNum.rat 4))]] : List JsObj).map
                    Dashboard.elementExp) * 100) ∧
    Dashboard.elementExp [("expenditure_bn", JsVal.num (JsNum.rat 4))]
        / Dashboard.chartMax
            (([[("expenditure_bn", JsVal.num (JsNum.rat 2))],
               [("expenditure_bn", JsVal.num (JsNum.rat 4))]] : List JsObj).map
              Dashboard.elementExp) * 100 = 100 ∧
    Dashboard.elementExp [("expenditure_bn", JsVal.num (JsNum.rat 2))]
          / Dashboard.chartMax
              (([[("expenditure_bn", JsVal.num (JsNum.rat 2))],
                 [("expenditure_bn", JsVal.num (JsNum.rat 4))]] : List JsObj).map
                Dashboard.elementExp) * 100
      ≤ Dashboard.elementExp [("expenditure_bn", JsVal.num (JsNum.rat 4))]
          / Dashboard.chartMax
              (([[("expenditure_bn", JsVal.num (JsNum.rat 2))],
                 [("expenditure_bn", JsVal.num (JsNum.rat 4))]] : List JsObj).map
                Dashboard.elementExp) * 100) :=
  ⟨by decide,
   elementsChart_bar_widths
     [[("expenditure_bn", JsVal.num (JsNum.rat 2))],
      [("expenditure_bn", JsVal.num (JsNum.rat 4))]]
     (by decide) (by decide)
     [("expenditure_bn", JsVal.num (JsNum.rat 4))] (by decide) (by decide)
     [("expenditure_bn", JsVal.num (JsNum.rat 2))] (by decide)
     [("expenditure_bn", JsVal.num (JsNum.rat 4))] (by decide) (by decide)⟩
